import Mathlib

/-!
Shallow embedding of `src/pandas_expectations.py`: a `PandasExpectations`
dataframe wrapper exposing boolean-valued expectation checks.

A dataframe is modelled as an ordered association list of named columns;
each column carries a dtype tag and a list of cell values.  Cell values are
modelled by the inductive type `Value`, with `Value.null` standing for a
missing value (NaN/None).  Indexing `self[colname]` raises `KeyError` in
pandas when the column is absent; column-scoped checks therefore return
`Option Bool`, with `none` standing for the propagated lookup error.
-/

inductive Value where
  | null : Value
  | int : Int → Value
  | rat : ℚ → Value
  | str : String → Value
deriving DecidableEq, Repr

structure Column where
  dtype : String
  values : List Value
deriving DecidableEq, Repr

structure PandasExpectations where
  cols : List (String × Column)
deriving DecidableEq, Repr

/-- `self.columns`: the dataframe's column names in order. -/
def colnames (df : PandasExpectations) : List String :=
  df.cols.map Prod.fst

/-- `self[colname]`: column lookup by name; `none` models the `KeyError`
pandas raises when the name is absent. -/
def getCol (df : PandasExpectations) (c : String) : Option Column :=
  df.cols.lookup c

/-- Numeric reading of a cell, used by `pandas.Series.mean`, which skips
missing values (`skipna=True` default) and averages the numeric entries. -/
def Value.toRat : Value → Option ℚ
  | Value.int n => some (n : ℚ)
  | Value.rat q => some q
  | _ => none

/-- `self[colname].mean()`: arithmetic mean of the numeric, non-missing
entries; `none` models the NaN produced when there are none (a NaN compares
false on both sides of a chained comparison). -/
def meanOf (values : List Value) : Option ℚ :=
  let nums := values.filterMap Value.toRat
  if nums.length = 0 then none else some (nums.sum / nums.length)

/-- `self.colnames`, read by `expect_dataframe_to_have_columns`: neither the
class nor `pd.DataFrame` defines such an attribute or property, so pandas'
`__getattr__` fallback resolves it to the *column* named `colnames` when one
exists and raises `AttributeError` otherwise; `none` models the raised
`AttributeError`. -/
def colnamesAttr (df : PandasExpectations) : Option Column :=
  getCol df "colnames"

/-- `expect_dataframe_to_have_columns`, traced literally.  With `columns`
empty the loop body never runs, `self.colnames` is never evaluated, the
missing list stays empty, and the source takes the `len(...) == 0` branch:
its diagnostic loop iterates over that empty list (printing nothing) and it
returns `False`.  With `columns` nonempty the first iteration evaluates
`colname in self.colnames`: without a column named `colnames` this raises
`AttributeError` (`none`); with such a column, the attribute resolves to
that column as a Series and `in` tests membership in the Series' *index* —
the positional integer row labels of this model — so every string `colname`
is appended to `colnames_not_in_df`, which ends nonempty, and the source
returns `True` (again printing nothing). -/
def expect_dataframe_to_have_columns (df : PandasExpectations) (columns : List String) :
    Option Bool :=
  match columns, colnamesAttr df with
  | [], _ => some false
  | _ :: _, none => none
  | _ :: _, some _ => some true

/-- `expect_columns_to_be_equal`: compares `sorted(self.columns)` with
`sorted(columns)` and returns `False` on inequality, `True` otherwise. -/
def expect_columns_to_be_equal (df : PandasExpectations) (columns : List String) : Bool :=
  let sorted_df_columns := List.insertionSort (· ≤ ·) (colnames df)
  let sorted_expected_columns := List.insertionSort (· ≤ ·) columns
  if sorted_df_columns ≠ sorted_expected_columns then false else true

/-- The loop body of `expect_schema_to_be_equal`: for each `(colname, dtype)`
pair of the schema dict (in iteration order) it looks up
`self[colname].dtype` (propagating the lookup error) and records whether it
equals the expected dtype. -/
def schemaFlags (df : PandasExpectations) : List (String × String) → Option (List Bool)
  | [] => some []
  | p :: rest => do
      let col ← getCol df p.1
      let flags ← schemaFlags df rest
      pure (decide (col.dtype = p.2) :: flags)

/-- `expect_schema_to_be_equal`: `all` of the per-column dtype checks. -/
def expect_schema_to_be_equal (df : PandasExpectations) (expected_schema : List (String × String)) :
    Option Bool :=
  (schemaFlags df expected_schema).map (fun columns_have_correct_dtype =>
    columns_have_correct_dtype.all id)

/-- `expect_column_values_to_not_be_null`: `all(self[colname].notnull())`. -/
def expect_column_values_to_not_be_null (df : PandasExpectations) (colname : String) :
    Option Bool :=
  (getCol df colname).map (fun col =>
    (col.values.map (fun v => decide (v ≠ Value.null))).all id)

/-- `expect_column_values_to_be_in_set`: for each value of
`self[colname].unique()` record membership in the permitted set, then `all`. -/
def expect_column_values_to_be_in_set (df : PandasExpectations) (colname : String)
    (permitted : List Value) : Option Bool :=
  (getCol df colname).map (fun col =>
    ((col.values.dedup).map (fun value => decide (value ∈ permitted))).all id)

/-- `expect_column_values_to_be_a_subset_of`: collect the distinct values
outside the superset and succeed iff that list is empty. -/
def expect_column_values_to_be_a_subset_of (df : PandasExpectations) (colname : String)
    (superset : List Value) : Option Bool :=
  (getCol df colname).map (fun col =>
    let values_not_in_superset := col.values.dedup.filter (fun value => decide (value ∉ superset))
    if values_not_in_superset.length = 0 then true else false)

/-- `expect_column_values_to_not_be_in_set`: record, for each distinct value,
membership in the forbidden set; succeed iff `not(any(...))`. -/
def expect_column_values_to_not_be_in_set (df : PandasExpectations) (colname : String)
    (forbidden : List Value) : Option Bool :=
  (getCol df colname).map (fun col =>
    !(((col.values.dedup).map (fun value => decide (value ∈ forbidden))).any id))

/-- `expect_column_mean_to_be_between`: `strict_min <= mean <= strict_max`
(non-strict on both sides despite the parameter names); a NaN mean makes the
chained comparison false. -/
def expect_column_mean_to_be_between (df : PandasExpectations) (colname : String)
    (strict_min strict_max : ℚ) : Option Bool :=
  (getCol df colname).map (fun col =>
    match meanOf col.values with
    | none => false
    | some mean => decide (strict_min ≤ mean) && decide (mean ≤ strict_max))

/-- One invocation of any expectation method, with its arguments. -/
inductive Check where
  | have_columns : List String → Check
  | columns_equal : List String → Check
  | schema_equal : List (String × String) → Check
  | not_null : String → Check
  | in_set : String → List Value → Check
  | subset_of : String → List Value → Check
  | not_in_set : String → List Value → Check
  | mean_between : String → ℚ → ℚ → Check

/-- A method call as a state transformer on the wrapped dataframe: the pair
holds the returned boolean (`none` = a propagated error: the `KeyError` of a
column lookup, or the `AttributeError` of the has-columns check) and the
dataframe after the call.  None of the method bodies in the source assigns
to `self` or to any column, so each dispatch leaves the dataframe as it was
on every path, error paths included; the only other effect in the source is
diagnostic `print` output. -/
def runCheck (df : PandasExpectations) : Check → Option Bool × PandasExpectations
  | Check.have_columns L => (expect_dataframe_to_have_columns df L, df)
  | Check.columns_equal L => (some (expect_columns_to_be_equal df L), df)
  | Check.schema_equal S => (expect_schema_to_be_equal df S, df)
  | Check.not_null c => (expect_column_values_to_not_be_null df c, df)
  | Check.in_set c S => (expect_column_values_to_be_in_set df c S, df)
  | Check.subset_of c S => (expect_column_values_to_be_a_subset_of df c S, df)
  | Check.not_in_set c S => (expect_column_values_to_not_be_in_set df c S, df)
  | Check.mean_between c lo hi => (expect_column_mean_to_be_between df c lo hi, df)

/-- The dataframe of the spec's concrete scenario: `A=[1,2,3]`, `B=[4,5,6]`. -/
def dfAB : PandasExpectations :=
  ⟨[("A", ⟨"int64", [Value.int 1, Value.int 2, Value.int 3]⟩),
    ("B", ⟨"int64", [Value.int 4, Value.int 5, Value.int 6]⟩)]⟩

/-- A one-column dataframe, used for duplicate-name scenarios. -/
def dfA : PandasExpectations :=
  ⟨[("A", ⟨"int64", [Value.int 1]⟩)]⟩

/-- `dfAB` with a single missing value inserted into column `A`. -/
def dfABnull : PandasExpectations :=
  ⟨[("A", ⟨"int64", [Value.int 1, Value.null, Value.int 2, Value.int 3]⟩),
    ("B", ⟨"int64", [Value.int 4, Value.int 5, Value.int 6]⟩)]⟩

theorem getCol_eq_none_iff (df : PandasExpectations) (c : String) :
    getCol df c = none ↔ c ∉ colnames df := by
  simp only [getCol, colnames, List.lookup_eq_none_iff, bne_iff_ne, ne_eq, List.mem_map,
    not_exists, not_and]
  constructor
  · intro h p hp hfst
    exact h p hp hfst.symm
  · intro h p hp hfst
    exact h p hp hfst.symm

theorem getCol_isSome_iff (df : PandasExpectations) (c : String) :
    (getCol df c).isSome ↔ c ∈ colnames df := by
  rw [Option.isSome_iff_ne_none, ne_eq, getCol_eq_none_iff, not_not]

/-- Equality of the two insertion-sorted name lists holds exactly when the
raw name lists are permutations of one another: sorting is invariant under
permutation, and sorted permutations coincide. -/
theorem columns_equal_true_iff_perm (df : PandasExpectations) (columns : List String) :
    expect_columns_to_be_equal df columns = true ↔ List.Perm (colnames df) columns := by
  unfold expect_columns_to_be_equal
  by_cases heq : List.insertionSort (· ≤ ·) (colnames df) = List.insertionSort (· ≤ ·) columns
  · simp only [heq, ne_eq, not_true_eq_false, if_false, true_iff]
    have h1 : List.Perm (colnames df) (List.insertionSort (· ≤ ·) (colnames df)) :=
      (List.perm_insertionSort _ _).symm
    have h2 : List.Perm (List.insertionSort (· ≤ ·) columns) columns := List.perm_insertionSort _ _
    exact h1.trans (heq.symm ▸ h2)
  · rw [if_pos heq]
    constructor
    · intro hft
      exact absurd hft (by decide)
    intro hperm
    exact absurd (List.eq_of_perm_of_sorted
      (((List.perm_insertionSort _ (colnames df)).trans hperm).trans
        (List.perm_insertionSort _ columns).symm)
      (List.sorted_insertionSort _ (colnames df))
      (List.sorted_insertionSort _ columns)) heq

/-- Claim C1 (code bug): `expect_dataframe_to_have_columns` never implements
its documented contract on the spec's scenario dataframe (columns `A`, `B`,
no column named `colnames`): any nonempty required list — `["A", "B"]`, all
present, just as `["A", "C"]`, one missing — raises `AttributeError`
(modelled `none`), because the loop reads the nonexistent attribute
`self.colnames`; and the empty required list (whose names are all trivially
present, so the docstring promises `True`) returns `False`, reaching the
inverted final conditional without ever touching the attribute and reporting
nothing. -/
theorem have_columns_errors_or_inverts :
    expect_dataframe_to_have_columns dfAB ["A", "B"] = none ∧
    expect_dataframe_to_have_columns dfAB ["A", "C"] = none ∧
    expect_dataframe_to_have_columns dfAB [] = some false := by
  exact ⟨by decide, by decide, by decide⟩

/-- Claim C2: for a column present in the dataframe whose mean is defined,
`expect_column_mean_to_be_between` answers `true` exactly when
`strict_min ≤ mean ∧ mean ≤ strict_max`: both bounds are inclusive despite
the parameter names. -/
theorem mean_between_inclusive_iff (df : PandasExpectations) (colname : String) (col : Column)
    (strict_min strict_max m : ℚ) (hcol : getCol df colname = some col)
    (hmean : meanOf col.values = some m) :
    expect_column_mean_to_be_between df colname strict_min strict_max = some true ↔
      (strict_min ≤ m ∧ m ≤ strict_max) := by
  simp [expect_column_mean_to_be_between, hcol, hmean]

/-- Claim C2, witness: column `A` of the scenario dataframe has mean 2; with
both bounds equal to the mean the check goes through the theorem at
`2 ≤ 2 ∧ 2 ≤ 2`, and with bounds `3, 10` (mean strictly below the lower
bound) at `3 ≤ 2 ∧ 2 ≤ 10`. -/
theorem mean_between_inclusive_iff_witness :
    (expect_column_mean_to_be_between dfAB "A" 2 2 = some true ↔ ((2:ℚ) ≤ 2 ∧ (2:ℚ) ≤ 2)) ∧
    (expect_column_mean_to_be_between dfAB "A" 3 10 = some true ↔ ((3:ℚ) ≤ 2 ∧ (2:ℚ) ≤ 10)) := by
  have hcol : getCol dfAB "A" = some ⟨"int64", [Value.int 1, Value.int 2, Value.int 3]⟩ := by
    decide
  have hm : meanOf [Value.int 1, Value.int 2, Value.int 3] = some 2 := by
    have hfm : List.filterMap Value.toRat [Value.int 1, Value.int 2, Value.int 3] =
        [1, 2, 3] := by
      norm_num [Value.toRat, List.filterMap_cons]
    unfold meanOf
    rw [hfm]
    norm_num [List.sum_cons]
  exact ⟨mean_between_inclusive_iff dfAB "A" _ 2 2 2 hcol hm,
    mean_between_inclusive_iff dfAB "A" _ 3 10 2 hcol hm⟩

/-- Claim C4 (amended): `expect_columns_to_be_equal` answers `true` exactly
when the dataframe's column-name list and the expected list agree as
multisets (same names with the same multiplicities, order-insensitively);
for duplicate-free lists this coincides with set equality. -/
theorem expect_columns_to_be_equal_iff_multiset_eq (df : PandasExpectations)
    (columns : List String) :
    expect_columns_to_be_equal df columns = true ↔
      ((colnames df : Multiset String) = (columns : Multiset String)) := by
  rw [columns_equal_true_iff_perm, Multiset.coe_eq_coe]

/-- Claim C4, counterexample: the one-column dataframe `dfA` (column `A`) and
the expected list `["A", "A"]` have equal column-name sets, yet the check
answers `false`, refuting the claimed set-equality characterisation. -/
theorem columns_equal_fails_set_semantics :
    (colnames dfA).toFinset = (["A", "A"] : List String).toFinset ∧
    expect_columns_to_be_equal dfA ["A", "A"] = false := by
  constructor
  · decide
  · have hnp : ¬ List.Perm (colnames dfA) ["A", "A"] := by
      intro hp
      have hlen := hp.length_eq
      simp [colnames, dfA] at hlen
    cases hb : expect_columns_to_be_equal dfA ["A", "A"] with
    | false => rfl
    | true => exact absurd ((columns_equal_true_iff_perm dfA ["A", "A"]).mp hb) hnp

/-- Claim C5: when the dataframe's column names are duplicate-free and match
the expected names as a set, but the expected list repeats a name, the
sorted-list comparison in `expect_columns_to_be_equal` answers `false`. -/
theorem columns_equal_false_of_duplicate (df : PandasExpectations) (columns : List String)
    (h1 : (colnames df).Nodup) (_h2 : (colnames df).toFinset = columns.toFinset)
    (h3 : ¬ columns.Nodup) :
    expect_columns_to_be_equal df columns = false := by
  cases hb : expect_columns_to_be_equal df columns with
  | false => rfl
  | true => exact absurd (((columns_equal_true_iff_perm df columns).mp hb).nodup h1) h3

/-- Claim C5, witness: the theorem applied to `dfA` (single column `A`) and
the duplicated expected list `["A", "A"]`. -/
theorem columns_equal_false_of_duplicate_witness :
    expect_columns_to_be_equal dfA ["A", "A"] = false :=
  columns_equal_false_of_duplicate dfA ["A", "A"] (by decide) (by decide) (by decide)

/-- The boolean computed by `expect_column_values_to_be_in_set` (all mapped
memberships) coincides with the one computed by
`expect_column_values_to_be_a_subset_of` (emptiness of the offending list). -/
theorem allMap_in_eq_filter_out_empty (S : List Value) :
    ∀ l : List Value,
      ((l.map (fun value => decide (value ∈ S))).all id) =
        (if (l.filter (fun value => decide (value ∉ S))).length = 0 then true else false)
  | [] => by simp
  | a :: l => by
      by_cases ha : a ∈ S
      · simp [ha, allMap_in_eq_filter_out_empty S l]
      · simp [ha, allMap_in_eq_filter_out_empty S l]

/-- Claim C3: for a column present in the dataframe,
`expect_column_values_to_be_in_set` answers `true` exactly when every value
of the column (equivalently, every distinct value) belongs to the permitted
set, and it returns the same answer as
`expect_column_values_to_be_a_subset_of` on the same input. -/
theorem in_set_iff_subset_and_agrees (df : PandasExpectations) (colname : String) (col : Column)
    (permitted : List Value) (hcol : getCol df colname = some col) :
    (expect_column_values_to_be_in_set df colname permitted = some true ↔
      ∀ v ∈ col.values, v ∈ permitted) ∧
    expect_column_values_to_be_in_set df colname permitted =
      expect_column_values_to_be_a_subset_of df colname permitted := by
  constructor
  · simp [expect_column_values_to_be_in_set, hcol, List.all_map, List.all_eq_true,
      List.mem_dedup, Function.comp]
  · unfold expect_column_values_to_be_in_set expect_column_values_to_be_a_subset_of
    rw [hcol]
    exact congrArg some (allMap_in_eq_filter_out_empty permitted col.values.dedup)

/-- Claim C3, witness: the theorem applied to column `A` of the scenario
dataframe with the permitted set `{1, 2, 3}`. -/
theorem in_set_iff_subset_and_agrees_witness :
    (expect_column_values_to_be_in_set dfAB "A" [Value.int 1, Value.int 2, Value.int 3] =
        some true ↔
      ∀ v ∈ [Value.int 1, Value.int 2, Value.int 3],
        v ∈ [Value.int 1, Value.int 2, Value.int 3]) ∧
    expect_column_values_to_be_in_set dfAB "A" [Value.int 1, Value.int 2, Value.int 3] =
      expect_column_values_to_be_a_subset_of dfAB "A" [Value.int 1, Value.int 2, Value.int 3] :=
  in_set_iff_subset_and_agrees dfAB "A" ⟨"int64", [Value.int 1, Value.int 2, Value.int 3]⟩
    [Value.int 1, Value.int 2, Value.int 3] (by decide)

theorem getCol_append_single (df : PandasExpectations) (n : String) (c : Column) (k : String)
    (hk : k ≠ n) : getCol ⟨df.cols ++ [(n, c)]⟩ k = getCol df k := by
  have hnk : (k == n) = false := by
    simp [hk]
  simp [getCol, List.lookup_append, List.lookup, hnk]

theorem schemaFlags_append_single (df : PandasExpectations) (n : String) (c : Column) :
    ∀ S : List (String × String), n ∉ S.map Prod.fst →
      schemaFlags ⟨df.cols ++ [(n, c)]⟩ S = schemaFlags df S
  | [], _ => rfl
  | p :: rest, hn => by
      simp only [List.map_cons, List.mem_cons, not_or] at hn
      simp only [schemaFlags, getCol_append_single df n c p.1 (fun h => hn.1 h.symm),
        schemaFlags_append_single df n c rest hn.2]

/-- When every schema key names a column, the flag list exists and its
conjunction captures exactly per-key dtype agreement. -/
theorem schemaFlags_spec (df : PandasExpectations) :
    ∀ S : List (String × String), (∀ p ∈ S, p.1 ∈ colnames df) →
      ∃ flags, schemaFlags df S = some flags ∧
        (flags.all id = true ↔ ∀ p ∈ S, ∃ col, getCol df p.1 = some col ∧ col.dtype = p.2)
  | [], _ => ⟨[], rfl, by simp⟩
  | p :: rest, h => by
      have hp : (getCol df p.1).isSome :=
        (getCol_isSome_iff df p.1).mpr (h p (List.mem_cons_self p rest))
      obtain ⟨col, hcol⟩ := Option.isSome_iff_exists.mp hp
      obtain ⟨flags, hflags, hiff⟩ :=
        schemaFlags_spec df rest (fun q hq => h q (List.mem_cons_of_mem p hq))
      refine ⟨decide (col.dtype = p.2) :: flags, ?_, ?_⟩
      · simp [schemaFlags, hcol, hflags]
      · simp only [List.all_cons, Bool.and_eq_true, decide_eq_true_eq, hiff, List.mem_cons, id]
        constructor
        · rintro ⟨hd, hrest⟩ q hq
          rcases hq with rfl | hq
          · exact ⟨col, hcol, hd⟩
          · exact hrest q hq
        · intro hall
          refine ⟨?_, fun q hq => hall q (Or.inr hq)⟩
          obtain ⟨col', hcol', hd⟩ := hall p (Or.inl rfl)
          have hcc : col = col' := by
            rw [hcol] at hcol'
            exact Option.some.inj hcol'
          rw [hcc]
          exact hd

/-- Claim C6: with every schema key naming a column of the dataframe,
`expect_schema_to_be_equal` answers `true` exactly when each listed column's
dtype equals its expected dtype (the result is the conjunction of the
per-column checks), and appending an extra column whose name is not a schema
key leaves the result unchanged. -/
theorem schema_equal_conj (df : PandasExpectations) (expected_schema : List (String × String))
    (h : ∀ p ∈ expected_schema, p.1 ∈ colnames df) :
    (expect_schema_to_be_equal df expected_schema = some true ↔
      ∀ p ∈ expected_schema, ∃ col, getCol df p.1 = some col ∧ col.dtype = p.2) ∧
    ∀ (n : String) (c : Column), n ∉ expected_schema.map Prod.fst →
      expect_schema_to_be_equal ⟨df.cols ++ [(n, c)]⟩ expected_schema =
        expect_schema_to_be_equal df expected_schema := by
  obtain ⟨flags, hf, hiff⟩ := schemaFlags_spec df expected_schema h
  constructor
  · unfold expect_schema_to_be_equal
    rw [hf]
    simpa using hiff
  · intro n c hn
    unfold expect_schema_to_be_equal
    rw [schemaFlags_append_single df n c expected_schema hn]

/-- Claim C6, witness: appending an unrelated column `C` (dtype `float64`)
to the scenario dataframe does not change the schema check for
`{A: int64}`. -/
theorem schema_equal_conj_witness :
    expect_schema_to_be_equal ⟨dfAB.cols ++ [("C", ⟨"float64", []⟩)]⟩ [("A", "int64")] =
      expect_schema_to_be_equal dfAB [("A", "int64")] :=
  (schema_equal_conj dfAB [("A", "int64")] (by decide)).2 "C" ⟨"float64", []⟩ (by decide)

/-- Claim C7: for a column present in the dataframe,
`expect_column_values_to_not_be_in_set` answers `true` exactly when the set
of distinct column values is disjoint from the forbidden set. -/
theorem not_in_set_iff_empty_inter (df : PandasExpectations) (colname : String) (col : Column)
    (forbidden : List Value) (hcol : getCol df colname = some col) :
    expect_column_values_to_not_be_in_set df colname forbidden = some true ↔
      col.values.toFinset ∩ forbidden.toFinset = ∅ := by
  rw [Finset.eq_empty_iff_forall_not_mem]
  simp [expect_column_values_to_not_be_in_set, hcol, List.any_map, List.any_eq_true,
    List.mem_dedup, Finset.mem_inter, List.mem_toFinset, Function.comp, not_and]

/-- Claim C7, witness: the theorem applied to column `A` of the scenario
dataframe with forbidden set `{9}`. -/
theorem not_in_set_iff_empty_inter_witness :
    expect_column_values_to_not_be_in_set dfAB "A" [Value.int 9] = some true ↔
      ([Value.int 1, Value.int 2, Value.int 3] : List Value).toFinset ∩
        ([Value.int 9] : List Value).toFinset = ∅ :=
  not_in_set_iff_empty_inter dfAB "A" ⟨"int64", [Value.int 1, Value.int 2, Value.int 3]⟩
    [Value.int 9] (by decide)

/-- The per-value `notnull` flags conjoin to the absence of `Value.null`. -/
theorem allMap_ne_null_eq :
    ∀ l : List Value,
      ((l.map (fun v => decide (v ≠ Value.null))).all id) = decide (Value.null ∉ l)
  | [] => by simp
  | a :: l => by
      by_cases ha : a = Value.null
      · simp [ha]
      · have ih := allMap_ne_null_eq l
        simp only [ne_eq, decide_not] at ih
        simp [ha, Ne.symm ha, ih]

/-- Claim C8: for a column present in the dataframe,
`expect_column_values_to_not_be_null` answers `true` exactly when no missing
value occurs in the column, and on any dataframe whose column holds the same
values with one null inserted anywhere, the check answers `false`. -/
theorem not_null_iff_and_insertion_flips (df : PandasExpectations) (colname : String)
    (col : Column) (hcol : getCol df colname = some col) :
    (expect_column_values_to_not_be_null df colname = some true ↔
      Value.null ∉ col.values) ∧
    ∀ (df' : PandasExpectations) (dt : String) (l1 l2 : List Value),
      col.values = l1 ++ l2 →
      getCol df' colname = some ⟨dt, l1 ++ Value.null :: l2⟩ →
      expect_column_values_to_not_be_null df' colname = some false := by
  constructor
  · simp [expect_column_values_to_not_be_null, hcol, allMap_ne_null_eq]
    constructor
    · intro h hmem
      exact h Value.null hmem rfl
    · intro h v hv hveq
      exact h (hveq ▸ hv)
  · intro df' dt l1 l2 _ hcol'
    simp [expect_column_values_to_not_be_null, hcol', List.all_map, List.map_append,
      List.all_append, List.all_cons]

/-- Claim C8, witness: column `A` of the scenario dataframe holds no null, and
inserting one null into it (`dfABnull`) flips the check to `false`. -/
theorem not_null_iff_and_insertion_flips_witness :
    (expect_column_values_to_not_be_null dfAB "A" = some true ↔
      Value.null ∉ [Value.int 1, Value.int 2, Value.int 3]) ∧
    expect_column_values_to_not_be_null dfABnull "A" = some false := by
  have h := not_null_iff_and_insertion_flips dfAB "A"
    ⟨"int64", [Value.int 1, Value.int 2, Value.int 3]⟩ (by decide)
  exact ⟨h.1, h.2 dfABnull "int64" [Value.int 1] [Value.int 2, Value.int 3]
    (by decide) (by decide)⟩

theorem schemaFlags_none_of_mem (df : PandasExpectations) :
    ∀ (sch : List (String × String)) (p : String × String), p ∈ sch →
      getCol df p.1 = none → schemaFlags df sch = none
  | [], p, hp, _ => absurd hp (List.not_mem_nil p)
  | q :: rest, p, hp, hnone => by
      rcases List.mem_cons.mp hp with h | h
      · subst h
        simp [schemaFlags, hnone]
      · cases hq : getCol df q.1 with
        | none => simp [schemaFlags, hq]
        | some c => simp [schemaFlags, hq, schemaFlags_none_of_mem df rest p h hnone]

/-- Claim C9: a column-scoped check invoked with a name absent from the
dataframe propagates a lookup error (modelled as `none`), for the null, the
two membership, the subset, the mean, and the schema checks; invoked on a
present column each of these returns a boolean (`isSome`), never an
exception for an unmet expectation. -/
theorem column_lookup_error_contract (df : PandasExpectations) (colname : String)
    (S : List Value) (sch : List (String × String)) (t : String) (lo hi : ℚ) :
    (colname ∉ colnames df →
      expect_column_values_to_not_be_null df colname = none ∧
      expect_column_values_to_be_in_set df colname S = none ∧
      expect_column_values_to_be_a_subset_of df colname S = none ∧
      expect_column_values_to_not_be_in_set df colname S = none ∧
      expect_column_mean_to_be_between df colname lo hi = none ∧
      ((colname, t) ∈ sch → expect_schema_to_be_equal df sch = none)) ∧
    (colname ∈ colnames df →
      (expect_column_values_to_not_be_null df colname).isSome ∧
      (expect_column_values_to_be_in_set df colname S).isSome ∧
      (expect_column_values_to_be_a_subset_of df colname S).isSome ∧
      (expect_column_values_to_not_be_in_set df colname S).isSome ∧
      (expect_column_mean_to_be_between df colname lo hi).isSome ∧
      ((∀ p ∈ sch, p.1 ∈ colnames df) → (expect_schema_to_be_equal df sch).isSome)) := by
  constructor
  · intro hmiss
    have hnone : getCol df colname = none := (getCol_eq_none_iff df colname).mpr hmiss
    exact ⟨by simp [expect_column_values_to_not_be_null, hnone],
      by simp [expect_column_values_to_be_in_set, hnone],
      by simp [expect_column_values_to_be_a_subset_of, hnone],
      by simp [expect_column_values_to_not_be_in_set, hnone],
      by simp [expect_column_mean_to_be_between, hnone],
      fun hmem => by
        simp [expect_schema_to_be_equal,
          schemaFlags_none_of_mem df sch (colname, t) hmem hnone]⟩
  · intro hpresent
    obtain ⟨col, hcol⟩ :=
      Option.isSome_iff_exists.mp ((getCol_isSome_iff df colname).mpr hpresent)
    exact ⟨by simp [expect_column_values_to_not_be_null, hcol],
      by simp [expect_column_values_to_be_in_set, hcol],
      by simp [expect_column_values_to_be_a_subset_of, hcol],
      by simp [expect_column_values_to_not_be_in_set, hcol],
      by simp [expect_column_mean_to_be_between, hcol],
      fun hkeys => by
        obtain ⟨flags, hf, _⟩ := schemaFlags_spec df sch hkeys
        simp [expect_schema_to_be_equal, hf]⟩

/-- Claim C9, witness: the theorem applied to the scenario dataframe with the
absent column `C` (lookup error) and with the present column `A` (boolean
result). -/
theorem column_lookup_error_contract_witness :
    expect_column_values_to_not_be_null dfAB "C" = none ∧
    (expect_column_values_to_not_be_null dfAB "A").isSome :=
  ⟨((column_lookup_error_contract dfAB "C" [] [] "int64" 0 0).1 (by decide)).1,
   ((column_lookup_error_contract dfAB "A" [] [] "int64" 0 0).2 (by decide)).1⟩

/-- Claim C10: every check invocation leaves the wrapped dataframe exactly as
it was: the dataframe component of `runCheck` is the input dataframe, hence
its column names and every column lookup (names, values and dtypes) are
unchanged; besides the returned boolean the source's only effect is
diagnostic `print` output. -/
theorem runCheck_never_mutates (df : PandasExpectations) (k : Check) :
    (runCheck df k).2 = df ∧ colnames (runCheck df k).2 = colnames df ∧
    ∀ c, getCol (runCheck df k).2 c = getCol df c := by
  cases k <;> exact ⟨rfl, rfl, fun _ => rfl⟩
